import Mathlib

/-!
Verification of the Navi companion-bot repository: a shallow embedding of the
parts of the Python source that the specification claims C1-C10 talk about,
followed by theorems settling each claim.

Conventions used throughout the embedding:
* Python `datetime` instants are modelled as integer counts (seconds or
  milliseconds, noted per definition); `timedelta` values are `Int`.
* SQLite integer columns feeding Python `bool()` are modelled as `Int`, with
  `pyBool` for the truthiness conversion.
* Mutable stores (the `users` table, the reminders table) are modelled as
  explicit values threaded through the functions that mutate them.
* Modules of the repository that are not part of the provided source tree
  (`database/reminders.py`, `database/clans.py`, `resources/functions.py`,
  `resources/strings.py`) are modelled from the specification; each such
  definition carries a doc comment starting with `Modelled from the spec:`.
-/

namespace Navi

/-! ## Data model: users (src/database/users.py) -/

/-- Embeds `UserAlert` (src/database/users.py lines 14-18): per-activity alert
settings (enabled flag, message template, visibility flag). -/
structure UserAlert where
  enabled : Bool
  message : String
  visible : Bool
deriving Repr, DecidableEq

/-- Embeds the `User` dataclass (src/database/users.py lines 20-83), restricted
to the fields the verified claims read.  The omitted fields are carried by the
real object but are neither read nor written on any code path a claim below
mentions. -/
structure User where
  alert_arena : UserAlert
  alert_horse_breed : UserAlert
  alert_hunt : UserAlert
  alert_lottery : UserAlert
  alert_partner : UserAlert
  alert_pets : UserAlert
  bot_enabled : Bool
  dnd_mode_enabled : Bool
  heal_warning_enabled : Bool
  partner_donor_tier : Int
  partner_id : Option Nat
  ping_after_message : Bool
  reactions_enabled : Bool
  user_donor_tier : Int
  user_id : Nat
deriving Repr, DecidableEq

/-- A row of the SQLite `users` table, restricted to the columns read by the
embedded code paths.  Boolean columns are stored as integers, as SQLite does;
`_dict_to_user` applies Python `bool()` to them. -/
structure UserDbRecord where
  alert_arena_enabled : Int
  alert_arena_message : String
  alert_arena_visible : Int
  alert_horse_breed_enabled : Int
  alert_horse_breed_message : String
  alert_horse_breed_visible : Int
  alert_hunt_enabled : Int
  alert_hunt_message : String
  alert_hunt_visible : Int
  alert_lottery_enabled : Int
  alert_lottery_message : String
  alert_lottery_visible : Int
  alert_partner_enabled : Int
  alert_partner_message : String
  alert_partner_visible : Int
  alert_pets_enabled : Int
  alert_pets_message : String
  alert_pets_visible : Int
  bot_enabled : Int
  dnd_mode_enabled : Int
  heal_warning_enabled : Int
  partner_donor_tier : Int
  partner_id : Option Nat
  ping_after_message : Int
  reactions_enabled : Int
  user_donor_tier : Int
  user_id : Nat
deriving Repr, DecidableEq

/-- Python `bool()` applied to an SQLite integer column. -/
def pyBool (i : Int) : Bool := i != 0

/-- Embeds `_dict_to_user` (src/database/users.py lines 262-393) on the fields
of `User` above.  Note lines 323-325 and 329-331 of the source: the `visible`
component of `alert_partner` and `alert_pets` is the literal `True`, not the
stored column value; every other alert reads its `_visible` column. -/
def dictToUser (r : UserDbRecord) : User where
  alert_arena := ⟨pyBool r.alert_arena_enabled, r.alert_arena_message, pyBool r.alert_arena_visible⟩
  alert_horse_breed := ⟨pyBool r.alert_horse_breed_enabled, r.alert_horse_breed_message,
    pyBool r.alert_horse_breed_visible⟩
  alert_hunt := ⟨pyBool r.alert_hunt_enabled, r.alert_hunt_message, pyBool r.alert_hunt_visible⟩
  alert_lottery := ⟨pyBool r.alert_lottery_enabled, r.alert_lottery_message,
    pyBool r.alert_lottery_visible⟩
  alert_partner := ⟨pyBool r.alert_partner_enabled, r.alert_partner_message, true⟩
  alert_pets := ⟨pyBool r.alert_pets_enabled, r.alert_pets_message, true⟩
  bot_enabled := pyBool r.bot_enabled
  dnd_mode_enabled := pyBool r.dnd_mode_enabled
  heal_warning_enabled := pyBool r.heal_warning_enabled
  partner_donor_tier := r.partner_donor_tier
  partner_id := r.partner_id
  ping_after_message := pyBool r.ping_after_message
  reactions_enabled := pyBool r.reactions_enabled
  user_donor_tier := r.user_donor_tier
  user_id := r.user_id

/-! ## User updates (src/database/users.py lines 531-665) -/

/-- The keyword-argument set of a `User.update` call, restricted to the columns
the claims exercise; `none` means the column is not among the kwargs. -/
structure UserUpdateKwargs where
  user_donor_tier : Option Int := none
  partner_donor_tier : Option Int := none
  partner_id : Option (Option Nat) := none
deriving Repr, DecidableEq

/-- The dynamic `UPDATE users SET ...` statement built by `_update_user`
(lines 650-657): each column named in the kwargs is overwritten, every other
column keeps its value. -/
def applyKwargs (r : UserDbRecord) (k : UserUpdateKwargs) : UserDbRecord :=
  { r with
    user_donor_tier := k.user_donor_tier.getD r.user_donor_tier
    partner_donor_tier := k.partner_donor_tier.getD r.partner_donor_tier
    partner_id := k.partner_id.getD r.partner_id }

/-- The `users` table, keyed by `user_id`. -/
abbrev NaviDB : Type := Nat → Option UserDbRecord

/-- One row update of the `users` table at the given `user_id`. -/
def updateRow (db : NaviDB) (uid : Nat) (k : UserUpdateKwargs) : NaviDB :=
  fun i => if i = uid then (db i).map (fun r => applyKwargs r k) else db i

/-- Embeds `_update_user` (src/database/users.py lines 644-665): run the row
update for the caller's row; then, when `user_donor_tier` is among the kwargs
and the caller's in-memory snapshot has a partner set, fetch the partner and
call `partner.update(partner_donor_tier=...)`.  That nested call carries no
`user_donor_tier` kwarg, so it performs exactly one further row update and the
recursion bottoms out; we inline it.  (When the partner row is absent the real
code raises `FirstTimeUserError` after the first row update has run; the
mapped update below leaves an absent row absent, matching the database state
at the point the exception escapes.) -/
def updateUser (db : NaviDB) (snapshot : UserDbRecord) (k : UserUpdateKwargs) : NaviDB :=
  let db1 := updateRow db snapshot.user_id k
  match k.user_donor_tier, snapshot.partner_id with
  | some n, some pid => updateRow db1 pid { partner_donor_tier := some n }
  | _, _ => db1

/-! ## Reminders and the scheduler drain loop (src/cogs/tasks.py) -/

/-- Embeds `reminders.Reminder` (database/reminders.py), restricted to the
fields the scheduler and the listeners read: the reminder type
(`"user"`/`"clan"`), target and channel ids, the absolute due instant, the
activity key, the substituted message, and the insertion-result flag
`record_exists`. -/
structure Reminder where
  reminder_type : String
  user_id : Nat
  channel_id : Nat
  end_time : Int
  activity : String
  message : String
  record_exists : Bool
deriving Repr, DecidableEq

/-- The grouping key built at src/cogs/tasks.py line 159:
`f'{reminder.user_id}-{reminder.channel_id}-{reminder.end_time}'`. -/
def reminderKey (r : Reminder) : String :=
  toString r.user_id ++ "-" ++ toString r.channel_id ++ "-" ++ toString r.end_time

/-- Whether a reminder is a user-type reminder (tasks.py line 158). -/
def isUserRem (r : Reminder) : Bool := r.reminder_type == "user"

/-- Key insertion preserving first-occurrence order, as a Python dict does. -/
def insertKey (ks : List String) (k : String) : List String :=
  if k ∈ ks then ks else ks ++ [k]

/-- The distinct grouping keys of the user reminders of the drained list, in
first-occurrence order: the key set of the `user_reminders` dict built at
tasks.py lines 155-163. -/
def groupKeys (rs : List Reminder) : List String :=
  rs.foldl (fun ks r => if isUserRem r then insertKey ks (reminderKey r) else ks) []

/-- The member list of the `user_reminders` dict at one key; dict values grow
by appends, so each group lists its members in drain order. -/
def groupFor (rs : List Reminder) (k : String) : List Reminder :=
  rs.filter (fun r => isUserRem r && reminderKey r == k)

/-- Python string comparison: lexicographic on code points. -/
def charListLeB : List Char → List Char → Bool
  | [], _ => true
  | _ :: _, [] => false
  | a :: as, b :: bs => if a < b then true else if b < a then false else charListLeB as bs

/-- Comparison used by `reminders_list.sort(key=lambda reminder: reminder.activity)`
(tasks.py line 171). -/
def activityLeB (a b : Reminder) : Bool := charListLeB a.activity.data b.activity.data

/-- Stable insertion used to model Python's stable `list.sort`: the new element
goes after every already-placed element whose activity compares `<=`. -/
def insertByActivity (acc : List Reminder) (r : Reminder) : List Reminder :=
  match acc with
  | [] => [r]
  | x :: xs => if activityLeB x r then x :: insertByActivity xs r else r :: x :: xs

/-- `reminders_list.sort(key=lambda reminder: reminder.activity)` (line 171),
modelled as a stable insertion sort. -/
def sortByActivity (rs : List Reminder) : List Reminder :=
  rs.foldl insertByActivity []

/-- The partition loop of tasks.py lines 172-178: split a batch into the
non-`pets` reminders and the `pets`-prefixed reminders, preserving order. -/
def splitPets : List Reminder → List Reminder × List Reminder
  | [] => ([], [])
  | r :: rs =>
    if r.activity.startsWith "pets" then ((splitPets rs).1, r :: (splitPets rs).2)
    else (r :: (splitPets rs).1, (splitPets rs).2)

/-- The reminder list handed to `create_task` for one user batch
(`other_reminders + pet_reminders`, tasks.py line 179). -/
def batchOf (g : List Reminder) : List Reminder :=
  (splitPets (sortByActivity g)).1 ++ (splitPets (sortByActivity g)).2

/-- Embeds one pass of the `schedule_tasks` drain loop (src/cogs/tasks.py
lines 150-179) on the reminders popped from `scheduled_for_tasks`, returning
the reminder lists handed to `create_task`: a singleton task per non-user
reminder, then one batched task per user grouping key. -/
def scheduleTasksBatches (rs : List Reminder) : List (List Reminder) :=
  (rs.filter (fun r => !(isUserRem r))).map (fun r => [r])
    ++ (groupKeys rs).map (fun k => batchOf (groupFor rs k))

/-! ## Partner proposal flow (src/content/settings.py, src/resources/views.py) -/

/-- The classes defined by src/resources/views.py, in source order (its
top-level `class` statements). -/
def viewsModuleClasses : List String :=
  ["AutoReadyView", "ConfirmCancelView", "ConfirmMarriageView", "TrainingAnswerView",
   "SettingsClanView", "SettingsHelpersView", "SettingsReadyView", "SettingsRemindersView",
   "SettingsUserView", "SettingsMessagesView", "SettingsPartnerView", "OneButtonView",
   "RemindersListView", "StatsView"]

/-- The attribute of the `views` module that `command_settings_partner` looks up
to build the proposal view (src/content/settings.py line 223:
`views.ConfirmMarriagelView(ctx, new_partner)`). -/
def partnerProposalViewName : String := "ConfirmMarriagelView"

/-- Embeds `ConfirmMarriageView.interaction_check` (src/resources/views.py
lines 123-127): only the proposed partner may interact. -/
def confirmMarriageInteractionCheck (newPartnerId interactingUserId : Nat) : Bool :=
  interactingUserId == newPartnerId

/-! ## Weekly clan reset (src/cogs/tasks.py lines 203-260) -/

/-- Embeds one best/worst raid entry of the weekly report. -/
structure ClanRaid where
  user_id : Nat
  energy : Int
deriving Repr, DecidableEq

/-- Modelled from the spec: `clans.ClanWeeklyReport` (database/clans.py is not
under src/); shape per spec section 3: total energy, optional best and worst
raid, praise and roast templates. -/
structure ClanWeeklyReport where
  energy_total : Int
  best_raid : Option ClanRaid
  worst_raid : Option ClanRaid
  praise : String
  roast : String
deriving Repr, DecidableEq

/-- Embeds `clans.Clan` (database/clans.py), restricted to the fields
`reset_clans` reads. -/
structure Clan where
  clan_name : String
  channel_id : Nat
  alert_enabled : Bool
  stealth_threshold : Int
  stealth_current : Int
deriving Repr, DecidableEq

/-- Python's thousands separator formatting `f'{n:,}'`, grouping step: the
input digit list is least-significant first. -/
def commaRev : List Char → List Char
  | a :: b :: c :: d :: rest => a :: b :: c :: ',' :: commaRev (d :: rest)
  | l => l

/-- `f'{n:,}'` for a natural number. -/
def pyFmtCommaNat (n : Nat) : String :=
  String.mk ((commaRev (Nat.toDigits 10 n).reverse).reverse)

/-- `f'{i:,}'` for an integer. -/
def pyFmtCommaInt (i : Int) : String :=
  if i < 0 then "-" ++ pyFmtCommaNat i.natAbs else pyFmtCommaNat i.natAbs

/-- The weekly report message built at tasks.py lines 235-256.  The emoji
glyphs `emojis.BP` / `emojis.ENERGY` and the member-name lookup live in modules
outside src/, so they are parameters. -/
def clanReportMessage (bp energyEmoji : String) (userName : Nat → String) (clan : Clan)
    (wr : ClanWeeklyReport) : String :=
  let m1 : String :=
    "**" ++ clan.clan_name ++ " weekly guild report**\n\n__Total energy from raids__: "
      ++ pyFmtCommaInt wr.energy_total ++ " " ++ energyEmoji ++ "\n\n"
  let m2 : String :=
    match wr.best_raid with
    | none => m1 ++ bp ++ " There were no cool raids. Not cool.\n"
    | some br =>
        m1 ++ bp ++ " " ++ String.replace wr.praise "{username}" (userName br.user_id)
          ++ " (_Best raid: " ++ pyFmtCommaInt br.energy ++ "_ " ++ energyEmoji ++ ")\n"
  match wr.worst_raid with
  | none => m2 ++ bp ++ " There were no lame raids. How lame.\n"
  | some wrr =>
      m2 ++ bp ++ " " ++ String.replace wr.roast "{username}" (userName wrr.user_id)
        ++ " (_Worst raid: " ++ pyFmtCommaInt wrr.energy ++ "_ " ++ energyEmoji ++ ")\n"

/-- The observable outcome of the `reset_clans` loop body for one clan. -/
structure ClanResetOutcome where
  clan : Clan
  reminderMessage : Option String
  report : Option String
deriving Repr, DecidableEq

/-- Embeds the per-clan body of `reset_clans` (src/cogs/tasks.py lines
217-258).  `weeklyReport` is the result of `clans.get_weekly_report`
(database/clans.py, not under src/), modelled from the spec, section 4.8: it
fails with `NoDataFoundError` when no raids occurred, modelled as `none`; the
source `continue`s on that error (lines 231-234) without posting anything.
`upgradeCmd`/`raidCmd` stand for the `strings.SLASH_COMMANDS_NEW` entries
(resources/strings.py, not under src/). -/
def processClanReset (upgradeCmd raidCmd bp energyEmoji : String) (userName : Nat → String)
    (clan : Clan) (weeklyReport : Option ClanWeeklyReport) : ClanResetOutcome :=
  let clan1 : Clan := { clan with stealth_current := 1 }
  if !clan.alert_enabled then ⟨clan1, none, none⟩
  else
    let cmd : String := if clan.stealth_threshold > 1 then upgradeCmd else raidCmd
    match weeklyReport with
    | none => ⟨clan1, some cmd, none⟩
    | some wr => ⟨clan1, some cmd, some (clanReportMessage bp energyEmoji userName clan wr)⟩

/-! ## Negative durations in the detection listeners
(src/cogs/arena.py, src/cogs/horse.py, src/cogs/events.py) -/

/-- The hunt-together heal threshold check of helper_heal.py line 102:
`health_lost > (health_remaining - (health_lost / 9))`.  Python `/` is float
division; for game-sized integer health values the comparison agrees with
exact rational arithmetic, which is how we model it. -/
def healWarnHuntTogether (healthLost healthRemaining : Int) : Bool :=
  decide ((healthLost : ℚ) > (healthRemaining : ℚ) - (healthLost : ℚ) / 9)

/-- Embeds lines 96-114 of helper_heal.py from the settings gate on: given the
parsed health values, the gate on `bot_enabled` and `heal_warning_enabled`
(line 71 of the handler guards this path), and the ping-style selection, return
the warning message sent, if any.  `action` is the slash-command string or the
plain word `heal`; `lifePotion` is the `emojis.LIFE_POTION` glyph (module not
under src/). -/
def huntTogetherHealWarning (u : User) (action lifePotion mention : String)
    (healthLost healthRemaining : Int) : Option String :=
  if !u.bot_enabled || !u.heal_warning_enabled then none
  else if healWarnHuntTogether healthLost healthRemaining then
    let warning := "Hey! Time to " ++ action ++ "! " ++ lifePotion
    if !u.dnd_mode_enabled then
      if u.ping_after_message then some (warning ++ " " ++ mention)
      else some (mention ++ " " ++ warning)
    else some ("**" ++ mention ++ "**, " ++ warning)
  else none

/-! ## Snowflake decoding (src/resources/modals.py lines 104-110) -/

/-- Little-endian binary digits of a natural number, with explicit fuel so the
definition is structurally recursive (the fuel is only peeled once per binary
digit). -/
def natBitsF : Nat → Nat → List Char
  | 0, _ => []
  | _ + 1, 0 => []
  | f + 1, m + 1 => (if (m + 1) % 2 == 1 then '1' else '0') :: natBitsF f ((m + 1) / 2)

/-- Python `f'{n:b}'` for positive `n` (and `[]` for 0; the 64-wide zero
padding below makes the two agree with Python on 0 as well). -/
def pyBinChars (n : Nat) : List Char := (natBitsF n n).reverse

/-- Python `f'{message_id:064b}'` (modals.py line 106): the binary rendering,
zero-padded on the left to at least 64 characters. -/
def pyBin064 (n : Nat) : List Char :=
  List.replicate (64 - (pyBinChars n).length) '0' ++ pyBinChars n

/-- Python `int(s, 2)` on a binary-digit string. -/
def parseBin (l : List Char) : Nat :=
  l.foldl (fun acc c => 2 * acc + (if c == '1' then 1 else 0)) 0

/-- The platform epoch offset hard-coded at modals.py line 109. -/
def DISCORD_EPOCH_MS : Nat := 1420070400000

/-- Embeds the snowflake decoding of `SetLastTTModal.callback` (modals.py
lines 106-109) up to the millisecond value: render the id as a 64-wide binary
string, keep the first 42 characters, parse them, and add the epoch offset.
(Line 109 then divides by 1000 and line 110 truncates to whole seconds.) -/
def snowflakeDecodeMs (messageId : Nat) : Nat :=
  parseBin ((pyBin064 messageId).take 42) + DISCORD_EPOCH_MS

/-- The stored instant in whole seconds after `/ 1000` and
`replace(microsecond=0)` (modals.py lines 109-110). -/
def snowflakeDecodeSec (messageId : Nat) : Nat := snowflakeDecodeMs messageId / 1000

/-! ## Reminder-message editor (src/resources/components.py lines 613-679) -/

/-- State of the scan for `re.finditer('\x7b(.+?)\x7d', text)`: outside any
candidate match, just past an opening brace, or collecting a lazy group. -/
inductive PhMode
  | out
  | enter
  | grp (acc : List Char)
deriving Repr, DecidableEq

/-- Scanner equivalent to `re.finditer('\x7b(.+?)\x7d', text)`: a match starts
at a `\x7b`, its group is the shortest nonempty run ending at the next
`\x7d`, and scanning resumes after the match.  `acc` collects the group in
reverse. -/
def phScan : PhMode → List Char → List String
  | _, [] => []
  | .out, c :: rest => if c == '{' then phScan .enter rest else phScan .out rest
  | .enter, c :: rest => phScan (.grp [c]) rest
  | .grp acc, c :: rest =>
    if c == '}' then String.mk acc.reverse :: phScan .out rest
    else phScan (.grp (c :: acc)) rest

/-- The placeholder group strings of a message, in match order. -/
def extractPlaceholders (s : String) : List String := phScan .out s.data

/-- Boolean list-prefix test. -/
def isPreB : List Char → List Char → Bool
  | [], _ => true
  | _ :: _, [] => false
  | a :: as, b :: bs => a == b && isPreB as bs

/-- Python's `needle in haystack` substring test on strings, as used by
components.py line 646 (`if placeholder_str not in strings.DEFAULT_MESSAGES[...]`). -/
def isSubB (needle : List Char) : List Char → Bool
  | [] => needle.isEmpty
  | c :: rest => isPreB needle (c :: rest) || isSubB needle rest

/-- Python `str.lower()` on the character sequence (ASCII-relevant here: the
compared keywords are ASCII). -/
def pyLower (s : String) : String := String.mk (s.data.map Char.toLower)

/-- The outcome of the `set_message` branch of
`SetReminderMessageButton.callback` (components.py lines 613-679). -/
inductive EditOutcome
  | rejectedMention
  | aborted
  | rejectedLength
  | rejectedPlaceholder (p : String)
  | committed (message : String)
deriving Repr, DecidableEq

/-- Embeds the validation sequence of the `set_message` branch (components.py
lines 622-679) on the typed answer: reject a message mentioning another user
(lines 622-630); treat `abort`/`cancel`/`stop` (case-insensitive) as an abort
(lines 632-636); reject messages over 1024 characters (lines 637-643); reject
on the first placeholder group whose text does not occur in the activity's
default message (lines 644-667); otherwise commit the new message
(lines 668-679). -/
def setReminderMessage (defaultMessage : String) (mentionsOther : Bool)
    (newMessage : String) : EditOutcome :=
  if mentionsOther then .rejectedMention
  else if pyLower newMessage == "abort" || pyLower newMessage == "cancel"
      || pyLower newMessage == "stop" then .aborted
  else if newMessage.length > 1024 then .rejectedLength
  else
    match (extractPlaceholders newMessage).find?
        (fun p => !(isSubB p.data defaultMessage.data)) with
    | some p => .rejectedPlaceholder p
    | none => .committed newMessage

/-- Modelled from the spec: a default reminder-message template
(`strings.DEFAULT_MESSAGES`, resources/strings.py, not under src/), spec
section 4.3(d): templates carry placeholder tokens such as `{command}`. -/
def defaultMessageHunt : String := "Hey! It is time for {command}!"

/-! ## Lottery over-limit reminder (src/cogs/lottery.py lines 162-171) -/

/-- Embeds the boundary computation of the over-limit branch (lottery.py lines
162-171) and returns the absolute due instant `current_time + time_left`.
The current instant is `day` whole days plus `sec` seconds since midnight
UTC; `today_12am`/`today_12pm`/`tomorrow_12am` are built exactly as in the
source. -/
def lotteryOverLimitDue (day sec : Nat) : Int :=
  let currentTime : Int := (day : Int) * 86400 + (sec : Int)
  let today12am : Int := (day : Int) * 86400
  let today12pm : Int := (day : Int) * 86400 + 43200
  let tomorrow12am : Int := today12am + 86400
  let timeLeft : Int :=
    if today12am > currentTime then today12am - currentTime
    else if today12pm > currentTime then today12pm - currentTime
    else tomorrow12am - currentTime
  currentTime + timeLeft

/-! ## Concrete sample values used by witnesses -/

/-- A sample per-activity alert setting. -/
def sampleAlert : UserAlert := ⟨true, "It is time for {command}!", true⟩

/-- A sample user with the bot, reactions, and the heal warning enabled, a
partner link to user 7, and no DND mode. -/
def sampleUser : User where
  alert_arena := sampleAlert
  alert_horse_breed := sampleAlert
  alert_hunt := sampleAlert
  alert_lottery := sampleAlert
  alert_partner := sampleAlert
  alert_pets := sampleAlert
  bot_enabled := true
  dnd_mode_enabled := false
  heal_warning_enabled := true
  partner_donor_tier := 2
  partner_id := some 7
  ping_after_message := false
  reactions_enabled := true
  user_donor_tier := 3
  user_id := 42

/-- A sample `users`-table row for user 42, partnered with user 7. -/
def sampleRecord : UserDbRecord where
  alert_arena_enabled := 1
  alert_arena_message := "It is time for {command}!"
  alert_arena_visible := 1
  alert_horse_breed_enabled := 1
  alert_horse_breed_message := "It is time for {command}!"
  alert_horse_breed_visible := 1
  alert_hunt_enabled := 1
  alert_hunt_message := "It is time for {command}!"
  alert_hunt_visible := 1
  alert_lottery_enabled := 1
  alert_lottery_message := "It is time for {command}!"
  alert_lottery_visible := 1
  alert_partner_enabled := 1
  alert_partner_message := "Your partner used {command}!"
  alert_partner_visible := 0
  alert_pets_enabled := 1
  alert_pets_message := "It is time to claim a pet!"
  alert_pets_visible := 0
  bot_enabled := 1
  dnd_mode_enabled := 0
  heal_warning_enabled := 1
  partner_donor_tier := 2
  partner_id := some 7
  ping_after_message := 0
  reactions_enabled := 1
  user_donor_tier := 3
  user_id := 42

/-- A sample `users`-table row for user 7, partnered with user 42. -/
def samplePartnerRecord : UserDbRecord :=
  { sampleRecord with
    user_id := 7
    partner_id := some 42
    user_donor_tier := 2
    partner_donor_tier := 3 }

/-- A two-row sample `users` table. -/
def sampleDb : NaviDB := fun i =>
  if i = 42 then some sampleRecord else if i = 7 then some samplePartnerRecord else none

/-- A sample clan with alerts enabled whose stealth counter stands at 40 of a
threshold of 50. -/
def sampleClan : Clan := ⟨"Ankh", 5, true, 50, 40⟩

/-- A sample user reminder for a hunt cooldown. -/
def remHunt : Reminder := ⟨"user", 1, 2, 100, "hunt", "hunt is ready", true⟩

/-- A sample user reminder for a pet return, due at the same instant for the
same user and channel as `remHunt`. -/
def remPets : Reminder := ⟨"user", 1, 2, 100, "pets-a", "pet a is back", true⟩

/-! ## Helper lemmas -/

/-- The hunt-together heal threshold over the rationals is the integer
comparison `10 * lost > 9 * remaining`. -/
theorem healWarnHuntTogether_iff (l r : Int) :
    healWarnHuntTogether l r = true ↔ 10 * l > 9 * r := by
  unfold healWarnHuntTogether
  rw [decide_eq_true_eq]
  constructor
  · intro h
    have h' : (10 * l : ℚ) > 9 * r := by linarith
    exact_mod_cast h'
  · intro h
    have h' : (10 * l : ℚ) > 9 * r := by exact_mod_cast h
    linarith

/-! ## Claim C10 -/

/-- C10: every `User` produced by `_dict_to_user` has
`alert_pets.visible = True` and `alert_partner.visible = True`, whatever the
stored record holds, so at the public interface these two visibility flags are
constant. -/
theorem dictToUser_pets_partner_always_visible (r : UserDbRecord) :
    (dictToUser r).alert_pets.visible = true ∧
      (dictToUser r).alert_partner.visible = true :=
  ⟨rfl, rfl⟩

/-! ## Claim C3 -/

/-- C3: the partner-proposal flow constructs its confirm view through the
attribute name `ConfirmMarriagelView` of the views module, but the views
module defines no class of that name (the confirm view class is
`ConfirmMarriageView`); the lookup therefore fails at runtime before any
proposal view is shown. -/
theorem partner_proposal_view_lookup_fails :
    partnerProposalViewName ∉ viewsModuleClasses ∧
      "ConfirmMarriageView" ∈ viewsModuleClasses := by
  decide

/-! ## Claim C9 -/

/-- C9: in the lottery over-limit branch, a rejection observed before 12:00
UTC schedules the reminder due at 12:00 UTC of the same day, and one observed
at or after 12:00 UTC schedules it due at 00:00 UTC of the next day. -/
theorem lotteryOverLimitDue_boundaries (day sec : Nat) (hs : sec < 86400) :
    (sec < 43200 → lotteryOverLimitDue day sec = (day : Int) * 86400 + 43200) ∧
    (43200 ≤ sec → lotteryOverLimitDue day sec = ((day : Int) + 1) * 86400) := by
  simp only [lotteryOverLimitDue]
  constructor <;> intro h <;> split_ifs <;> omega

/-- Witness for C9 at 11:00 UTC and 13:00 UTC of day 0. -/
theorem lotteryOverLimitDue_boundaries_witness :
    (39600 < 86400 ∧ 39600 < 43200 ∧
      lotteryOverLimitDue 0 39600 = (0 : Int) * 86400 + 43200) ∧
    (46800 < 86400 ∧ 43200 ≤ 46800 ∧
      lotteryOverLimitDue 0 46800 = ((0 : Int) + 1) * 86400) :=
  ⟨⟨by decide, by decide,
      (lotteryOverLimitDue_boundaries 0 39600 (by decide)).1 (by decide)⟩,
   ⟨by decide, by decide,
      (lotteryOverLimitDue_boundaries 0 46800 (by decide)).2 (by decide)⟩⟩

/-! ## Claim C6 -/

/-- C6: on the hunt-together path, with the bot and the heal warning enabled,
a heal warning is posted exactly when health lost exceeds health remaining
minus one ninth of health lost; in particular lost 50 / remaining 55 warns and
lost 50 / remaining 60 does not. -/
theorem hunt_together_heal_warning_threshold (u : User) (action lifePotion mention : String)
    (hb : u.bot_enabled = true) (hw : u.heal_warning_enabled = true) :
    (∀ l r : Int, ((huntTogetherHealWarning u action lifePotion mention l r).isSome = true ↔
      (l : ℚ) > (r : ℚ) - (l : ℚ) / 9)) ∧
    (huntTogetherHealWarning u action lifePotion mention 50 55).isSome = true ∧
    (huntTogetherHealWarning u action lifePotion mention 50 60).isSome = false := by
  have key : ∀ a b : Int,
      (huntTogetherHealWarning u action lifePotion mention a b).isSome
        = healWarnHuntTogether a b := by
    intro a b
    cases hcond : healWarnHuntTogether a b with
    | false => simp [huntTogetherHealWarning, hb, hw, hcond]
    | true =>
      simp only [huntTogetherHealWarning, hb, hw, hcond, Bool.not_true, Bool.or_self,
        Bool.false_or, if_true, if_false, Bool.false_eq_true, ite_false, ite_true]
      split_ifs <;> rfl
  refine ⟨?_, ?_, ?_⟩
  · intro l r
    rw [key l r]
    unfold healWarnHuntTogether
    exact decide_eq_true_iff
  · rw [key, healWarnHuntTogether_iff]
    decide
  · rw [key]
    cases hval : healWarnHuntTogether 50 60 with
    | false => rfl
    | true =>
      rw [healWarnHuntTogether_iff] at hval
      omega

/-- Witness for C6 on the sample user with the concrete health readings of the
claim. -/
theorem hunt_together_heal_warning_threshold_witness :
    sampleUser.bot_enabled = true ∧ sampleUser.heal_warning_enabled = true ∧
    (huntTogetherHealWarning sampleUser "heal" "potion" "@u" 50 55).isSome = true ∧
    (huntTogetherHealWarning sampleUser "heal" "potion" "@u" 50 60).isSome = false :=
  ⟨rfl, rfl,
    (hunt_together_heal_warning_threshold sampleUser "heal" "potion" "@u" rfl rfl).2.1,
    (hunt_together_heal_warning_threshold sampleUser "heal" "potion" "@u" rfl rfl).2.2⟩

/-! ## Claim C2 -/

/-- C2: `User.update(user_donor_tier=N)` with a partner set leaves the
partner's row with `partner_donor_tier = N` (and the caller's row with
`user_donor_tier = N`) when both rows are re-read; with no partner set, no row
other than the caller's changes. -/
theorem user_update_donor_tier_cascade (db : NaviDB) (u : UserDbRecord) (n : Int)
    (hu : db u.user_id = some u) :
    (∀ pid, u.partner_id = some pid → (db pid).isSome = true →
      ((updateUser db u { user_donor_tier := some n }) pid).map
          UserDbRecord.partner_donor_tier = some n ∧
      ((updateUser db u { user_donor_tier := some n }) u.user_id).map
          UserDbRecord.user_donor_tier = some n) ∧
    (u.partner_id = none → ∀ j, j ≠ u.user_id →
      updateUser db u { user_donor_tier := some n } j = db j) := by
  constructor
  · intro pid hp hs
    obtain ⟨p, hp2⟩ := Option.isSome_iff_exists.mp hs
    by_cases hpe : pid = u.user_id
    · subst hpe
      constructor <;>
        simp [updateUser, hp, updateRow, applyKwargs, hu]
    · constructor
      · simp [updateUser, hp, updateRow, applyKwargs, hp2, hpe]
      · simp [updateUser, hp, updateRow, applyKwargs, hu, Ne.symm hpe]
  · intro hp j hj
    simp [updateUser, hp, updateRow, hj]

/-- Witness for C2 on the two-row sample table. -/
theorem user_update_donor_tier_cascade_witness :
    sampleDb sampleRecord.user_id = some sampleRecord ∧
    sampleRecord.partner_id = some 7 ∧ (sampleDb 7).isSome = true ∧
    ((updateUser sampleDb sampleRecord { user_donor_tier := some 5 }) 7).map
        UserDbRecord.partner_donor_tier = some 5 :=
  ⟨rfl, rfl, rfl,
    ((user_update_donor_tier_cascade sampleDb sampleRecord 5 rfl).1 7 rfl rfl).1⟩

/-! ## Claim C1: helper lemmas on the drain-loop model -/

/-- Membership in an inserted key list. -/
theorem mem_insertKey (ks : List String) (k k2 : String) :
    k ∈ insertKey ks k2 ↔ k ∈ ks ∨ k = k2 := by
  unfold insertKey
  split_ifs with h
  · constructor
    · exact Or.inl
    · rintro (hk | rfl) <;> [exact hk; exact h]
  · simp [List.mem_append]

/-- The key fold of `groupKeys` only grows the accumulator. -/
theorem groupKeys_foldl_mono (l : List Reminder) (init : List String) (k : String)
    (hk : k ∈ init) :
    k ∈ l.foldl (fun ks r => if isUserRem r then insertKey ks (reminderKey r) else ks) init := by
  induction l generalizing init with
  | nil => exact hk
  | cons r l ih =>
    refine ih _ ?_
    by_cases hr : isUserRem r
    · simp [hr, mem_insertKey]
      exact Or.inl hk
    · simpa [hr] using hk

/-- Every user reminder processed by the key fold contributes its key. -/
theorem groupKeys_foldl_mem (l : List Reminder) (init : List String) (r : Reminder)
    (hr : r ∈ l) (huser : isUserRem r = true) :
    reminderKey r ∈ l.foldl
      (fun ks x => if isUserRem x then insertKey ks (reminderKey x) else ks) init := by
  induction l generalizing init with
  | nil => cases hr
  | cons x l ih =>
    rcases List.mem_cons.mp hr with rfl | hr
    · simp only [List.foldl_cons]
      refine groupKeys_foldl_mono l _ _ ?_
      simp [huser, mem_insertKey]
    · simp only [List.foldl_cons]
      exact ih _ hr

/-- Every user reminder of the drained list contributes its key to
`groupKeys`. -/
theorem groupKeys_mem (rs : List Reminder) (r : Reminder) (hr : r ∈ rs)
    (huser : isUserRem r = true) : reminderKey r ∈ groupKeys rs :=
  groupKeys_foldl_mem rs [] r hr huser

/-- Membership in a stable activity-ordered insertion. -/
theorem mem_insertByActivity (acc : List Reminder) (r x : Reminder) :
    x ∈ insertByActivity acc r ↔ x ∈ acc ∨ x = r := by
  induction acc with
  | nil => simp [insertByActivity]
  | cons y l ih =>
    unfold insertByActivity
    split_ifs with h
    · simp [ih]
      tauto
    · simp
      tauto

/-- The activity sort is membership-preserving. -/
theorem mem_sortByActivity_foldl (l acc : List Reminder) (x : Reminder) :
    x ∈ l.foldl insertByActivity acc ↔ x ∈ acc ∨ x ∈ l := by
  induction l generalizing acc with
  | nil => simp
  | cons r l ih =>
    simp only [List.foldl_cons, ih, mem_insertByActivity, List.mem_cons]
    tauto

/-- The activity sort is membership-preserving. -/
theorem mem_sortByActivity (l : List Reminder) (x : Reminder) :
    x ∈ sortByActivity l ↔ x ∈ l := by
  unfold sortByActivity
  simp [mem_sortByActivity_foldl]

/-- Elements of the first component of the pets partition are the non-pets
reminders. -/
theorem splitPets_fst_flag (l : List Reminder) (x : Reminder)
    (hx : x ∈ (splitPets l).1) : x.activity.startsWith "pets" = false := by
  induction l with
  | nil => cases hx
  | cons r rl ih =>
    by_cases h : r.activity.startsWith "pets"
    · rw [splitPets, if_pos h] at hx
      exact ih hx
    · rw [splitPets, if_neg h] at hx
      rcases List.mem_cons.mp hx with rfl | hx
      · simpa using h
      · exact ih hx

/-- Elements of the second component of the pets partition are the pets
reminders. -/
theorem splitPets_snd_flag (l : List Reminder) (x : Reminder)
    (hx : x ∈ (splitPets l).2) : x.activity.startsWith "pets" = true := by
  induction l with
  | nil => cases hx
  | cons r rl ih =>
    by_cases h : r.activity.startsWith "pets"
    · rw [splitPets, if_pos h] at hx
      rcases List.mem_cons.mp hx with rfl | hx
      · exact h
      · exact ih hx
    · rw [splitPets, if_neg h] at hx
      exact ih hx

/-- The pets partition is membership-preserving. -/
theorem splitPets_mem (l : List Reminder) (x : Reminder) :
    x ∈ l ↔ x ∈ (splitPets l).1 ∨ x ∈ (splitPets l).2 := by
  induction l with
  | nil => simp [splitPets]
  | cons r rl ih =>
    by_cases h : r.activity.startsWith "pets"
    · rw [splitPets, if_pos h]
      simp only [List.mem_cons, ih]
      exact or_left_comm
    · rw [splitPets, if_neg h]
      simp only [List.mem_cons, ih]
      exact or_assoc.symm

/-- Batch construction is membership-preserving. -/
theorem mem_batchOf (g : List Reminder) (x : Reminder) :
    x ∈ batchOf g ↔ x ∈ g := by
  unfold batchOf
  rw [List.mem_append, ← splitPets_mem, mem_sortByActivity]

/-- Membership in one grouping-key's member list. -/
theorem mem_groupFor (rs : List Reminder) (k : String) (x : Reminder) :
    x ∈ groupFor rs k ↔ x ∈ rs ∧ isUserRem x = true ∧ reminderKey x = k := by
  unfold groupFor
  simp [List.mem_filter, Bool.and_eq_true, and_assoc]

/-! ## Claim C1 -/

/-- C1: user reminders drained in the same pass that share user id, channel id
and exact end time land in one and the same created task, and in every created
task the reminders whose activity starts with `pets` come after all reminders
whose activity does not, regardless of the order the drain saw them in. -/
theorem schedule_tasks_user_batching (rs : List Reminder) (r1 r2 : Reminder)
    (h1 : r1 ∈ rs) (h2 : r2 ∈ rs)
    (t1 : r1.reminder_type = "user") (t2 : r2.reminder_type = "user")
    (hu : r1.user_id = r2.user_id) (hc : r1.channel_id = r2.channel_id)
    (he : r1.end_time = r2.end_time) :
    (∃ b ∈ scheduleTasksBatches rs, r1 ∈ b ∧ r2 ∈ b ∧
      (∀ b2 ∈ scheduleTasksBatches rs, r1 ∈ b2 → b2 = b)) ∧
    (∀ b ∈ scheduleTasksBatches rs, ∃ os ps, b = os ++ ps ∧
      (∀ x ∈ os, x.activity.startsWith "pets" = false) ∧
      (∀ x ∈ ps, x.activity.startsWith "pets" = true)) := by
  have hu1 : isUserRem r1 = true := by simp [isUserRem, t1]
  have hu2 : isUserRem r2 = true := by simp [isUserRem, t2]
  have hk : reminderKey r2 = reminderKey r1 := by
    unfold reminderKey
    rw [hu, hc, he]
  constructor
  · refine ⟨batchOf (groupFor rs (reminderKey r1)), ?_, ?_, ?_, ?_⟩
    · unfold scheduleTasksBatches
      refine List.mem_append_right _ ?_
      exact List.mem_map_of_mem _ (groupKeys_mem rs r1 h1 hu1)
    · exact (mem_batchOf _ _).mpr ((mem_groupFor rs _ r1).mpr ⟨h1, hu1, rfl⟩)
    · exact (mem_batchOf _ _).mpr ((mem_groupFor rs _ r2).mpr ⟨h2, hu2, hk⟩)
    · intro b2 hb2 hr1b2
      unfold scheduleTasksBatches at hb2
      rcases List.mem_append.mp hb2 with hb2 | hb2
      · obtain ⟨x, hx, rfl⟩ := List.mem_map.mp hb2
        obtain ⟨-, hxflag⟩ := List.mem_filter.mp hx
        obtain rfl := List.mem_singleton.mp hr1b2
        rw [hu1] at hxflag
        cases hxflag
      · obtain ⟨k2, hk2, rfl⟩ := List.mem_map.mp hb2
        obtain ⟨-, -, hkey⟩ := (mem_groupFor rs k2 r1).mp ((mem_batchOf _ _).mp hr1b2)
        rw [hkey]
  · intro b hb
    unfold scheduleTasksBatches at hb
    rcases List.mem_append.mp hb with hb | hb
    · obtain ⟨x, hx, rfl⟩ := List.mem_map.mp hb
      cases hflag : x.activity.startsWith "pets" with
      | false =>
        refine ⟨[x], [], by simp, ?_, by simp⟩
        intro y hy
        obtain rfl := List.mem_singleton.mp hy
        exact hflag
      | true =>
        refine ⟨[], [x], by simp, by simp, ?_⟩
        intro y hy
        obtain rfl := List.mem_singleton.mp hy
        exact hflag
    · obtain ⟨k2, hk2, rfl⟩ := List.mem_map.mp hb
      refine ⟨(splitPets (sortByActivity (groupFor rs k2))).1,
        (splitPets (sortByActivity (groupFor rs k2))).2, rfl, ?_, ?_⟩
      · intro y hy
        exact splitPets_fst_flag _ y hy
      · intro y hy
        exact splitPets_snd_flag _ y hy

/-- Witness for C1: two simultaneous reminders of user 1 in channel 2, with
the pets reminder drained first. -/
theorem schedule_tasks_user_batching_witness :
    remPets ∈ [remPets, remHunt] ∧ remHunt ∈ [remPets, remHunt] ∧
    remPets.reminder_type = "user" ∧ remHunt.reminder_type = "user" ∧
    remPets.user_id = remHunt.user_id ∧ remPets.channel_id = remHunt.channel_id ∧
    remPets.end_time = remHunt.end_time ∧
    ((∃ b ∈ scheduleTasksBatches [remPets, remHunt], remPets ∈ b ∧ remHunt ∈ b ∧
        (∀ b2 ∈ scheduleTasksBatches [remPets, remHunt], remPets ∈ b2 → b2 = b)) ∧
      (∀ b ∈ scheduleTasksBatches [remPets, remHunt], ∃ os ps, b = os ++ ps ∧
        (∀ x ∈ os, x.activity.startsWith "pets" = false) ∧
        (∀ x ∈ ps, x.activity.startsWith "pets" = true))) :=
  ⟨by simp, by simp, rfl, rfl, rfl, rfl, rfl,
    schedule_tasks_user_batching [remPets, remHunt] remPets remHunt
      (by simp) (by simp) rfl rfl rfl rfl rfl⟩

/-! ## Claim C7: helper lemmas on binary rendering and parsing -/

/-- `parseBin` with an explicit accumulator. -/
theorem parseBin_foldl (l : List Char) (acc : Nat) :
    l.foldl (fun a c => 2 * a + (if c == '1' then 1 else 0)) acc
      = acc * 2 ^ l.length + parseBin l := by
  induction l generalizing acc with
  | nil => simp [parseBin]
  | cons c l ih =>
    simp only [List.foldl_cons, List.length_cons, parseBin]
    rw [ih (2 * acc + _), ih (2 * 0 + _)]
    ring

/-- `parseBin` over a concatenation. -/
theorem parseBin_append (xs ys : List Char) :
    parseBin (xs ++ ys) = parseBin xs * 2 ^ ys.length + parseBin ys := by
  unfold parseBin
  rw [List.foldl_append]
  exact parseBin_foldl ys _

/-- A parsed character list is bounded by `2 ^ length`. -/
theorem parseBin_lt (l : List Char) : parseBin l < 2 ^ l.length := by
  induction l with
  | nil => simp [parseBin]
  | cons c l ih =>
    have hb : (if c == '1' then 1 else 0) ≤ 1 := by split_ifs <;> omega
    have : parseBin (c :: l)
        = (2 * 0 + (if c == '1' then 1 else 0)) * 2 ^ l.length + parseBin l := by
      unfold parseBin
      rw [List.foldl_cons]
      exact parseBin_foldl l _
    rw [this, List.length_cons, pow_succ]
    nlinarith

/-- Leading zeros do not change the parsed value. -/
theorem parseBin_replicate_zero (k : Nat) (l : List Char) :
    parseBin (List.replicate k '0' ++ l) = parseBin l := by
  have h0 : parseBin (List.replicate k '0') = 0 := by
    induction k with
    | zero => rfl
    | succ k ih =>
      unfold parseBin at ih ⊢
      rw [List.replicate_succ, List.foldl_cons]
      simpa using ih
  rw [parseBin_append, h0]
  ring

/-- With sufficient fuel, rendering then parsing the binary digits of a
natural number is the identity. -/
theorem natBitsF_parse (f : Nat) : ∀ n, n ≤ f → parseBin ((natBitsF f n).reverse) = n := by
  induction f with
  | zero =>
    intro n hn
    obtain rfl := Nat.le_zero.mp hn
    rfl
  | succ f ih =>
    intro n hn
    match n with
    | 0 => rfl
    | m + 1 =>
      have hq : (m + 1) / 2 ≤ f := by omega
      simp only [natBitsF, List.reverse_cons]
      rw [parseBin_append, ih _ hq]
      rcases Nat.mod_two_eq_zero_or_one (m + 1) with hm | hm <;>
        simp [parseBin, hm] <;> omega

/-- The rendered digit list of `n < 2 ^ k` has at most `k` digits. -/
theorem natBitsF_length (f : Nat) : ∀ n k, n < 2 ^ k → (natBitsF f n).length ≤ k := by
  induction f with
  | zero =>
    intro n k _
    simp [natBitsF]
  | succ f ih =>
    intro n k hk
    match n with
    | 0 => simp [natBitsF]
    | m + 1 =>
      match k with
      | 0 => omega
      | k + 1 =>
        have h2 : (2 : Nat) ^ (k + 1) = 2 * 2 ^ k := by ring
        have hq : (m + 1) / 2 < 2 ^ k := by omega
        simp only [natBitsF, List.length_cons]
        have := ih ((m + 1) / 2) k hq
        omega

/-! ## Claim C7 -/

/-- C7 (amended): for a 64-bit message id the decoder yields the id's top 42
bits (`id / 2 ^ 22`) plus the epoch offset of 1,420,070,400,000 ms; hence an
id whose 42-bit timestamp component is zero (any id below `2 ^ 22`, e.g. 0)
decodes to the epoch instant itself. -/
theorem snowflake_decode_42bit (id : Nat) (h : id < 2 ^ 64) :
    snowflakeDecodeMs id = id / 2 ^ 22 + 1420070400000 ∧
    (id < 2 ^ 22 → snowflakeDecodeMs id = 1420070400000) := by
  have hb : (pyBinChars id).length ≤ 64 := by
    unfold pyBinChars
    rw [List.length_reverse]
    exact natBitsF_length id id 64 h
  have hlen64 : (pyBin064 id).length = 64 := by
    unfold pyBin064
    rw [List.length_append, List.length_replicate]
    omega
  have hparse : parseBin (pyBin064 id) = id := by
    unfold pyBin064 pyBinChars
    rw [parseBin_replicate_zero]
    exact natBitsF_parse id id le_rfl
  have hdlen : ((pyBin064 id).drop 42).length = 22 := by
    rw [List.length_drop, hlen64]
  have happ := parseBin_append ((pyBin064 id).take 42) ((pyBin064 id).drop 42)
  rw [hdlen, List.take_append_drop, hparse] at happ
  have hdless : parseBin ((pyBin064 id).drop 42) < 2 ^ 22 := by
    have := parseBin_lt ((pyBin064 id).drop 42)
    rwa [hdlen] at this
  have h22 : (2 : Nat) ^ 22 = 4194304 := by norm_num
  have hmain : parseBin ((pyBin064 id).take 42) = id / 2 ^ 22 := by
    rw [h22] at happ hdless ⊢
    omega
  constructor
  · unfold snowflakeDecodeMs DISCORD_EPOCH_MS
    rw [hmain]
  · intro hsmall
    unfold snowflakeDecodeMs DISCORD_EPOCH_MS
    rw [hmain, Nat.div_eq_of_lt hsmall]

/-- Witness for C7 at the id 2026. -/
theorem snowflake_decode_42bit_witness :
    2026 < 2 ^ 64 ∧
    (snowflakeDecodeMs 2026 = 2026 / 2 ^ 22 + 1420070400000 ∧
      (2026 < 2 ^ 22 → snowflakeDecodeMs 2026 = 1420070400000)) :=
  ⟨by norm_num, snowflake_decode_42bit 2026 (by norm_num)⟩

/-- C7 counterexample: the id that is exactly the epoch offset shifted left by
22 bits does not decode to the epoch instant (1,420,070,400,000 ms since the
Unix epoch, i.e. 2015-01-01T00:00:00Z); it decodes to twice the offset
(2,840,140,800,000 ms, a 2060 instant), because the decoder adds the offset to
the extracted timestamp component. -/
theorem snowflake_epoch_shift_counterexample :
    snowflakeDecodeMs (1420070400000 * 2 ^ 22) = 2840140800000 ∧
    2840140800000 ≠ 1420070400000 := by
  constructor
  · decide
  · decide

/-! ## Claim C8: helper lemmas on the placeholder scanner -/

/-- The boolean prefix test is the prefix relation. -/
theorem isPreB_iff (n : List Char) : ∀ h : List Char, isPreB n h = true ↔ ∃ t, h = n ++ t := by
  induction n with
  | nil =>
    intro h
    simp [isPreB]
  | cons a as ih =>
    intro h
    match h with
    | [] => simp [isPreB]
    | b :: bs =>
      simp only [isPreB, Bool.and_eq_true, beq_iff_eq, ih bs]
      constructor
      · rintro ⟨rfl, t, rfl⟩
        exact ⟨t, rfl⟩
      · rintro ⟨t, heq⟩
        injection heq with h1 h2
        exact ⟨h1.symm, t, h2⟩

/-- The boolean substring test is the contiguous-substring relation, i.e.
Python's `in` on strings. -/
theorem isSubB_iff (h : List Char) : ∀ n : List Char,
    isSubB n h = true ↔ ∃ pre post, h = pre ++ n ++ post := by
  induction h with
  | nil =>
    intro n
    match n with
    | [] => simp [isSubB]
    | c :: cs =>
      simp only [isSubB, List.isEmpty_cons, Bool.false_eq_true, false_iff]
      rintro ⟨pre, post, heq⟩
      simp [List.append_eq_nil] at heq
  | cons c rest ih =>
    intro n
    simp only [isSubB, Bool.or_eq_true, isPreB_iff, ih]
    constructor
    · rintro (⟨t, heq⟩ | ⟨pre, post, rfl⟩)
      · exact ⟨[], t, by simpa using heq⟩
      · exact ⟨c :: pre, post, rfl⟩
    · rintro ⟨pre, post, heq⟩
      match pre with
      | [] =>
        left
        exact ⟨post, by simpa using heq⟩
      | d :: ds =>
        right
        injection heq with h1 h2
        exact ⟨ds, post, h2⟩

/-- Every group the scanner emits is a contiguous substring of the scanned
text (in every mode, for the `grp` mode possibly fused with the pending
accumulator). -/
theorem phScan_sub (l : List Char) :
    (∀ q, q ∈ phScan .out l → ∃ pre post, l = pre ++ q.data ++ post) ∧
    (∀ q, q ∈ phScan .enter l → ∃ pre post, l = pre ++ q.data ++ post) ∧
    (∀ acc q, q ∈ phScan (.grp acc) l →
      (∃ pre post, l = pre ++ q.data ++ post) ∨
      (∃ g post, l = g ++ '}' :: post ∧ q.data = acc.reverse ++ g)) := by
  induction l with
  | nil =>
    refine ⟨?_, ?_, ?_⟩ <;> intros <;> simp [phScan] at *
  | cons c rest ih =>
    obtain ⟨ihOut, ihEnter, ihGrp⟩ := ih
    refine ⟨?_, ?_, ?_⟩
    · intro q hq
      by_cases hc : c = '{'
      · rw [phScan, if_pos (by simp [hc])] at hq
        obtain ⟨pre, post, heq⟩ := ihEnter q hq
        exact ⟨c :: pre, post, by rw [heq]; rfl⟩
      · rw [phScan, if_neg (by simp [hc])] at hq
        obtain ⟨pre, post, heq⟩ := ihOut q hq
        exact ⟨c :: pre, post, by rw [heq]; rfl⟩
    · intro q hq
      rw [phScan] at hq
      rcases ihGrp [c] q hq with ⟨pre, post, heq⟩ | ⟨g, post, hrest, hdata⟩
      · exact ⟨c :: pre, post, by rw [heq]; rfl⟩
      · refine ⟨[], '}' :: post, ?_⟩
        rw [hdata]
        simp [hrest]
    · intro acc q hq
      by_cases hc : c = '}'
      · rw [phScan, if_pos (by simp [hc])] at hq
        rcases List.mem_cons.mp hq with rfl | hq
        · right
          exact ⟨[], rest, by simp [hc], by simp⟩
        · obtain ⟨pre, post, heq⟩ := ihOut q hq
          left
          exact ⟨c :: pre, post, by rw [heq]; rfl⟩
      · rw [phScan, if_neg (by simp [hc])] at hq
        rcases ihGrp (c :: acc) q hq with ⟨pre, post, heq⟩ | ⟨g, post, hrest, hdata⟩
        · left
          exact ⟨c :: pre, post, by rw [heq]; rfl⟩
        · right
          refine ⟨c :: g, post, by rw [hrest]; rfl, ?_⟩
          rw [hdata]
          simp

/-- Every placeholder group of a string occurs in it as a substring. -/
theorem placeholder_isSub (s : String) (q : String) (hq : q ∈ extractPlaceholders s) :
    isSubB q.data s.data = true := by
  obtain ⟨pre, post, heq⟩ := (phScan_sub s.data).1 q hq
  exact (isSubB_iff s.data q.data).mpr ⟨pre, post, heq⟩

/-! ## Claim C8 -/

/-- C8 (amended): the reminder-message editor rejects a message that mentions
another player, then treats the literal texts `abort`/`cancel`/`stop`
(case-insensitively) as a cancellation that commits nothing, then rejects a
message longer than 1024 characters; apart from those cases it commits the
message exactly when every placeholder group's text occurs as a substring of
the activity's default message (so a message using only placeholders present
in the default template, or none at all, is committed, but the check is a
substring test on the group text, not membership in the template's placeholder
set). -/
theorem setReminderMessage_amended (dflt msg : String) (mentions : Bool) :
    (mentions = true → setReminderMessage dflt mentions msg = .rejectedMention) ∧
    (mentions = false → pyLower msg ≠ "abort" → pyLower msg ≠ "cancel" →
      pyLower msg ≠ "stop" →
      ((msg.length > 1024 → setReminderMessage dflt mentions msg = .rejectedLength) ∧
       (msg.length ≤ 1024 →
         ((setReminderMessage dflt mentions msg = .committed msg ↔
            ∀ p ∈ extractPlaceholders msg, isSubB p.data dflt.data = true) ∧
          ((∀ p ∈ extractPlaceholders msg, p ∈ extractPlaceholders dflt) →
            setReminderMessage dflt mentions msg = .committed msg))))) := by
  constructor
  · intro hm
    rw [setReminderMessage, if_pos hm]
  · intro hm ha hc hs
    have hkw : (pyLower msg == "abort" || pyLower msg == "cancel" || pyLower msg == "stop")
        = false := by
      simp [ha, hc, hs]
    constructor
    · intro hlong
      rw [setReminderMessage, if_neg (by simp [hm]), if_neg (by simp [hkw]),
        if_pos hlong]
    · intro hshort
      have hbase : setReminderMessage dflt mentions msg
          = match (extractPlaceholders msg).find?
              (fun p => !(isSubB p.data dflt.data)) with
            | some p => .rejectedPlaceholder p
            | none => .committed msg := by
        rw [setReminderMessage, if_neg (by simp [hm]), if_neg (by simp [hkw]),
          if_neg (by omega)]
      constructor
      · cases hfind : (extractPlaceholders msg).find? (fun p => !(isSubB p.data dflt.data)) with
        | none =>
          rw [hbase, hfind]
          simp only [true_iff]
          intro p hp
          have := List.find?_eq_none.mp hfind p hp
          simpa using this
        | some p =>
          rw [hbase, hfind]
          constructor
          · intro hcon
            cases hcon
          · intro hall
            have hmem := List.mem_of_find?_eq_some hfind
            have hpred := List.find?_some hfind
            rw [hall p hmem] at hpred
            cases hpred
      · intro hall
        have hAllSub : ∀ p ∈ extractPlaceholders msg, isSubB p.data dflt.data = true :=
          fun p hp => placeholder_isSub dflt p (hall p hp)
        have hfind : (extractPlaceholders msg).find? (fun p => !(isSubB p.data dflt.data))
            = none := by
          rw [List.find?_eq_none]
          intro p hp
          simp [hAllSub p hp]
        rw [hbase, hfind]

/-- Witness for C8: a message using only the template's own placeholder is
committed. -/
theorem setReminderMessage_amended_witness :
    pyLower "{command} ready" ≠ "abort" ∧ pyLower "{command} ready" ≠ "cancel" ∧
    pyLower "{command} ready" ≠ "stop" ∧ ("{command} ready").length ≤ 1024 ∧
    setReminderMessage defaultMessageHunt false "{command} ready"
      = .committed "{command} ready" :=
  ⟨by decide, by decide, by decide, by decide,
    (((setReminderMessage_amended defaultMessageHunt "{command} ready" false).2
      rfl (by decide) (by decide) (by decide)).2 (by decide)).2 (by decide)⟩

/-- C8 counterexample: the message `{comm}` contains a placeholder token that
is not a placeholder of the default template (whose only placeholder is
`command`), yet the editor commits it, because the check is a substring test
(`comm` occurs inside `{command}`); and the zero-placeholder message `stop` is
not committed but treated as an abort keyword. -/
theorem setReminderMessage_counterexample :
    setReminderMessage defaultMessageHunt false "{comm}" = .committed "{comm}" ∧
    extractPlaceholders defaultMessageHunt = ["command"] ∧
    "comm" ∉ (["command"] : List String) ∧
    setReminderMessage defaultMessageHunt false "stop" = .aborted := by
  refine ⟨by decide, by decide, by decide, by decide⟩

/-! ## Claim C4 -/

/-- C4 (amended): the weekly reset sets every clan's stealth counter to 1; for
an alert-enabled clan, when the weekly-report lookup finds no raid data
(`NoDataFoundError`) the loop continues and posts no report at all, and when a
report exists but records no best and no worst raid the posted report contains
the two neutral placeholder lines. -/
theorem clan_reset_amended (up rd bp en : String) (userName : Nat → String) (clan : Clan)
    (report : Option ClanWeeklyReport) :
    (processClanReset up rd bp en userName clan report).clan
        = { clan with stealth_current := 1 } ∧
    (clan.alert_enabled = true → report = none →
      (processClanReset up rd bp en userName clan report).report = none) ∧
    (clan.alert_enabled = true → ∀ wr, report = some wr → wr.best_raid = none →
      wr.worst_raid = none →
      ∃ pre mid post,
        (processClanReset up rd bp en userName clan report).report
          = some (pre ++ "There were no cool raids. Not cool." ++ mid
              ++ "There were no lame raids. How lame." ++ post)) := by
  refine ⟨?_, ?_, ?_⟩
  · cases report <;> by_cases h : clan.alert_enabled <;> simp [processClanReset, h]
  · intro hal hrep
    subst hrep
    simp [processClanReset, hal]
  · intro hal wr hrep hbest hworst
    subst hrep
    have hsplit1 : (" There were no cool raids. Not cool.\n" : String)
        = " " ++ "There were no cool raids. Not cool." ++ "\n" := by decide
    have hsplit2 : (" There were no lame raids. How lame.\n" : String)
        = " " ++ "There were no lame raids. How lame." ++ "\n" := by decide
    refine ⟨("**" ++ clan.clan_name ++ " weekly guild report**\n\n__Total energy from raids__: "
        ++ pyFmtCommaInt wr.energy_total ++ " " ++ en ++ "\n\n") ++ bp ++ " ",
      "\n" ++ bp ++ " ", "\n", ?_⟩
    simp only [processClanReset, hal, Bool.not_true, Bool.false_eq_true, if_false,
      clanReportMessage, hbest, hworst]
    rw [hsplit1, hsplit2]
    simp only [String.append_assoc]

/-- Witness for C4 on the sample clan with an empty weekly report record. -/
theorem clan_reset_amended_witness :
    sampleClan.alert_enabled = true ∧
    (processClanReset "guild upgrade" "guild raid" "BP" "EN" (fun _ => "u")
        sampleClan none).report = none :=
  ⟨rfl,
    (clan_reset_amended "guild upgrade" "guild raid" "BP" "EN" (fun _ => "u")
      sampleClan none).2.1 rfl rfl⟩

/-- C4 counterexample: for an alert-enabled clan with no raid-energy data for
the week, the reset posts no weekly report at all (the claim expects a report
carrying both neutral placeholder lines); the stealth counter is still reset
to 1. -/
theorem clan_reset_no_raid_report_counterexample :
    sampleClan.alert_enabled = true ∧
    (processClanReset "guild upgrade" "guild raid" "BP" "EN" (fun _ => "u")
        sampleClan none).report = none ∧
    (processClanReset "guild upgrade" "guild raid" "BP" "EN" (fun _ => "u")
        sampleClan none).clan.stealth_current = 1 :=
  ⟨rfl, rfl, rfl⟩

/-! ## Claim C5 -/

end Navi
